import Mathlib

/-
Verification of the publish logic of scripts/package.py (ta-lib release
packaging). The Python functions that decide whether a freshly built
artifact replaces the copy in the dist directory are embedded as pure
Lean functions over an explicit model of the dist directory (a list of
named files). External tools (cmake, cpack, autotools) and the helper
modules utilities.common / utilities.files are outside the sources; they
enter the model as boolean parameters (tool availability, tool success)
and as an abstract comparator parameter, except where a claim depends on
a comparator's meaning, in which case the comparator is modelled from
the spec and marked as such.
-/

namespace TaLib

/-- Byte content of an archive member. -/
abbrev Bytes := List Nat

/-- An artifact's content: the ordered member list (name, bytes) plus a
build-metadata component (timestamps inside the archive, compression
level) that content comparators are meant to ignore. -/
structure Archive where
  members : List (String × Bytes)
  metadata : Nat
deriving DecidableEq

/-- A file in a directory: its name, its archive content, and the
modification time stamped when it was last written. -/
structure DistFile where
  name : String
  content : Archive
  mtime : Nat
deriving DecidableEq

/-- Boolean test that `needle` occurs as a contiguous sublist of `hay`;
this is Python's `in` operator on strings, applied to the character
lists. Used by `delete_other_versions`, `find_asset_with_ext` and
`package_deb` (package.py lines 58, 136, 284, 318). -/
def listContains (hay needle : List Char) : Bool :=
  needle.isPrefixOf hay ||
    match hay with
    | [] => false
    | _ :: t => listContains t needle

/-- Python `needle in hay` on strings. -/
def strContains (hay needle : String) : Bool :=
  listContains hay.data needle.data

/-- Python `s.endswith(suf)`. -/
def strEndsWith (s suf : String) : Bool :=
  suf.data.isSuffixOf s.data

/-- `path_join` with a forward separator. `glob.glob(path_join(dir, pat))`
returns full paths of this shape, which is what the version-substring
checks in package.py receive. -/
def pathJoin (d n : String) : String := d ++ "/" ++ n

/-- A glob pattern of the shape `pre*suf` (the only shape package.py
uses: "ta-lib-*.zip", "*.deb", "*-src.tar.gz", "*.msi") matched against a
file name. -/
def globMatch (pre suf name : String) : Bool :=
  pre.data.isPrefixOf name.data && suf.data.isSuffixOf (name.data.drop pre.data.length)

/-- Look a file up by name in a directory. -/
def findFile (dist : List DistFile) (name : String) : Option DistFile :=
  dist.find? (fun f => f.name == name)

/-- `os.remove(dir/name)`: drop the file of that name. -/
def removeFile (dist : List DistFile) (name : String) : List DistFile :=
  dist.filter (fun f => !(f.name == name))

/-- `shutil.copy` / `os.rename` of a candidate into the directory under
`name`: any previous file of that name is replaced whole, and the new
file carries the write-time `now`. -/
def writeFile (dist : List DistFile) (name : String) (c : Archive) (now : Nat) :
    List DistFile :=
  removeFile dist name ++ [⟨name, c, now⟩]

/-- The result dictionary keys shared by the packaging functions:
`success`, `existed`, `copied` (package.py lines 211-213, 250-253,
342-345, 436-438). -/
structure PublishResult where
  success : Bool
  existed : Bool
  copied : Bool
deriving DecidableEq

/-- `delete_other_versions(target_dir, file_pattern, new_version)`
(package.py lines 51-59): every file in the directory matching the glob
pattern is deleted when `new_version` is not a substring of the globbed
path — note the path, `target_dir` joined with the name, not the bare
name. -/
def delete_other_versions (target_dir pre suf new_version : String)
    (dist : List DistFile) : List DistFile :=
  dist.filter fun f =>
    !(globMatch pre suf f.name && !(strContains (pathJoin target_dir f.name) new_version))

/-- The publish tail of `package_windows_zip` (package.py lines 203-214):
copy the candidate into dist when no published file of the asset name
exists or the zip comparator reports a difference; otherwise leave dist
alone. The comparator is a parameter (utilities.files is outside the
sources); it is only consulted when the published file exists, matching
the short-circuit `or` in the source. -/
def zip_publish_tail (cmp : Archive → Archive → Bool) (dist : List DistFile)
    (asset_file_name : String) (cand : Archive) (now : Nat) :
    PublishResult × List DistFile :=
  let package_existed := (findFile dist asset_file_name).isSome
  let equivalent :=
    match findFile dist asset_file_name with
    | some f => cmp cand f.content
    | none => false
  if !package_existed || !equivalent then
    (⟨true, package_existed, true⟩, writeFile dist asset_file_name cand now)
  else
    (⟨true, package_existed, false⟩, dist)

/-- The publish tail of `package_windows_msi` (package.py lines 241-254):
as the zip tail but with the extra `force` disjunct, and the replace is
`os.remove` of the old file followed by `os.rename` of the candidate. -/
def msi_publish_tail (cmp : Archive → Archive → Bool) (force : Bool)
    (dist : List DistFile) (asset_file_name : String) (cand : Archive) (now : Nat) :
    PublishResult × List DistFile :=
  let package_existed := (findFile dist asset_file_name).isSome
  let equivalent :=
    match findFile dist asset_file_name with
    | some f => cmp cand f.content
    | none => false
  if force || !package_existed || !equivalent then
    (⟨true, package_existed, true⟩, writeFile dist asset_file_name cand now)
  else
    (⟨true, package_existed, false⟩, dist)

/-- The publish tail of `package_deb` (package.py lines 334-346): same
decision as the zip tail, replace by `os.rename`. -/
def deb_publish_tail (cmp : Archive → Archive → Bool) (dist : List DistFile)
    (asset_file_name : String) (cand : Archive) (now : Nat) :
    PublishResult × List DistFile :=
  let package_existed := (findFile dist asset_file_name).isSome
  let equivalent :=
    match findFile dist asset_file_name with
    | some f => cmp cand f.content
    | none => false
  if !package_existed || !equivalent then
    (⟨true, package_existed, true⟩, writeFile dist asset_file_name cand now)
  else
    (⟨true, package_existed, false⟩, dist)

/-- The publish tail of `package_src_tar_gz` (package.py lines 424-439):
same decision as the zip tail, replace by `os.rename`. -/
def src_publish_tail (cmp : Archive → Archive → Bool) (dist : List DistFile)
    (asset_file_name : String) (cand : Archive) (now : Nat) :
    PublishResult × List DistFile :=
  let package_existed := (findFile dist asset_file_name).isSome
  let equivalent :=
    match findFile dist asset_file_name with
    | some f => cmp cand f.content
    | none => false
  if !package_existed || !equivalent then
    (⟨true, package_existed, true⟩, writeFile dist asset_file_name cand now)
  else
    (⟨true, package_existed, false⟩, dist)

/-- The argument dictionary of `display_package_results`
(package.py lines 513-532). -/
structure ResultsDict where
  built : Bool
  success : Bool
  asset_file_name : String
  copied : Bool
  existed : Bool
deriving DecidableEq

/-- `display_package_results` (package.py lines 513-532) as the list of
lines it prints. -/
def display_package_results (r : ResultsDict) : List String :=
  if r.built then
    (if !r.success then ["Error: Packaging dist/" ++ r.asset_file_name ++ " failed."]
     else []) ++
    (if r.copied then
      if r.existed then ["Updated dist/" ++ r.asset_file_name]
      else ["Created dist/" ++ r.asset_file_name]
     else ["No changes for dist/" ++ r.asset_file_name])
  else
    [r.asset_file_name ++ " build skipped (not supported on this platform)"]

/-- The errors of `find_asset_with_ext` (package.py lines 125-140); both
are reported by printing and `sys.exit(1)`. The spec's error taxonomy
names them AmbiguousArtifactError and VersioningError. -/
inductive FindErr
  | ambiguousArtifact (found : Nat)
  | versioning
deriving DecidableEq

instance {ε α : Type} [DecidableEq ε] [DecidableEq α] : DecidableEq (Except ε α) :=
  fun a b =>
  match a, b with
  | .error x, .error y =>
    if h : x = y then .isTrue (congrArg Except.error h)
    else .isFalse (fun hc => h (Except.error.inj hc))
  | .ok x, .ok y =>
    if h : x = y then .isTrue (congrArg Except.ok h)
    else .isFalse (fun hc => h (Except.ok.inj hc))
  | .error _, .ok _ => .isFalse (fun hc => Except.noConfusion hc)
  | .ok _, .error _ => .isFalse (fun hc => Except.noConfusion hc)

/-- `find_asset_with_ext(target_dir, version, extension)`
(package.py lines 125-140): glob `target_dir/*.extension`, require
exactly one match, then require `version` to be a substring of the
matched PATH (`version not in filepath`, line 136, where `filepath` is
the glob result, i.e. the directory joined with the name), and return
the base name. `files` models the names present in `target_dir`. -/
def find_asset_with_ext (target_dir version extension : String)
    (files : List String) : Except FindErr String :=
  let found := files.filter (fun n => strEndsWith n ("." ++ extension))
  match found with
  | [name] =>
    if !(strContains (pathJoin target_dir name) version) then .error .versioning
    else .ok name
  | other => .error (.ambiguousArtifact other.length)

/-- Modelled from the spec: `compare_zip_files` lives in utilities/files.py,
which is not among the sources. Spec section 4.1 step 3: a zip-like archive
pair is equivalent iff the ordered list of member names is identical and
each member's decompressed byte content is identical, while compression
level and metadata are ignored. -/
def compare_zip_files (a b : Archive) : Bool :=
  a.members == b.members

/-- `package_windows_zip` restricted to its effect on the dist directory
(package.py lines 142-214): the stale-version clean-up of dist (line 150,
pattern "ta-lib-*.zip"), then — after the build steps, which do not touch
dist — the publish tail under the canonical asset name
"ta-lib-VERSION-win64.zip" (line 145). `root_dir` is needed because the
clean-up tests the version against the globbed path `root_dir/dist/name`. -/
def package_windows_zip_dist (cmp : Archive → Archive → Bool)
    (root_dir version : String) (cand : Archive) (dist : List DistFile)
    (now : Nat) : PublishResult × List DistFile :=
  let dist_dir := pathJoin root_dir "dist"
  let dist1 := delete_other_versions dist_dir "ta-lib-" ".zip" version dist
  let asset_file_name := "ta-lib-" ++ version ++ "-win64.zip"
  zip_publish_tail cmp dist1 asset_file_name cand now

/-- Outcome of `package_windows_zip` as seen by its caller
(package.py lines 142-214): `none` models the bare `return` on zip
creation failure (line 197, which returns Python `None`); `some r`
models the returned result dictionary. `copy_ok` is the success of the
built-file copying block (lines 174-189, an early `return result` with
`success=False` on failure); `create_zip_ok` is the success of
`create_zip_file` (lines 193-197). The build steps before them exit the
process on failure and are outside this function's return value. -/
def package_windows_zip_run (copy_ok create_zip_ok : Bool)
    (cmp : Archive → Archive → Bool) (root_dir version : String)
    (cand : Archive) (dist : List DistFile) (now : Nat) :
    Option PublishResult × List DistFile :=
  let dist_dir := pathJoin root_dir "dist"
  let dist1 := delete_other_versions dist_dir "ta-lib-" ".zip" version dist
  if !copy_ok then (some ⟨false, false, false⟩, dist1)
  else if !create_zip_ok then (none, dist1)
  else
    let asset_file_name := "ta-lib-" ++ version ++ "-win64.zip"
    let (r, dist2) := zip_publish_tail cmp dist1 asset_file_name cand now
    (some r, dist2)

/-- The host/tool conditions `package_windows_msi` consults
(package.py lines 224-234): dotnet and WiX presence (early failure
returns), and the cmake reconfigure / build / cpack steps, which call
`sys.exit(1)` on failure. -/
structure MsiEnv where
  dotnet : Bool
  wix : Bool
  build_ok : Bool
deriving DecidableEq

/-- `package_windows_msi(root_dir, version, force)` (package.py lines
216-254) on the dist model. `.error 1` models `sys.exit(1)` (raised by
the cmake helpers and by `find_asset_with_ext`); `.ok` carries the
result dictionary and the dist directory afterwards. `buildFiles` models
the content of the cmake build directory after cpack. -/
def package_windows_msi_run (env : MsiEnv) (force : Bool)
    (cmp : Archive → Archive → Bool) (root_dir version : String)
    (buildFiles : List DistFile) (dist : List DistFile) (now : Nat) :
    Except Nat (PublishResult × List DistFile) :=
  if !env.dotnet then .ok (⟨false, false, false⟩, dist)
  else if !env.wix then .ok (⟨false, false, false⟩, dist)
  else if !env.build_ok then .error 1
  else
    let build_dir := pathJoin root_dir "build"
    match find_asset_with_ext build_dir version "msi" (buildFiles.map (·.name)) with
    | .error _ => .error 1
    | .ok asset_file_name =>
      match findFile buildFiles asset_file_name with
      | none => .error 1
      | some cand =>
        .ok (msi_publish_tail cmp force dist asset_file_name cand.content now)

/-- The host/tool conditions `package_deb` consults
(package.py lines 267-307): `is_debian_based`, `is_cmake_installed`,
the presence of CMakeLists.txt, and the cmake / cpack subprocess
outcomes. All live in utilities.common or are external tools, so they
are boolean parameters. -/
structure DebEnv where
  is_debian_based : Bool
  is_cmake_installed : Bool
  cmake_lists_exists : Bool
  cmake_ok : Bool
  cpack_ok : Bool
deriving DecidableEq

/-- `package_deb(root_dir, version, sudo_pwd)` (package.py lines 256-346)
on the dist model. The steps, in source order: dependency checks (each an
early failure return that leaves dist untouched); deletion of every
`*.deb` in dist whose globbed path lacks the version substring (lines
282-285, `version not in file` on the path); cmake and cpack (early
failure returns, after the deletion); the ambiguity check `len(deb_files)
!= 1` on the build directory's `*.deb` glob (lines 310-314); the version
substring check on the deb file's PATH (lines 317-320); and the publish
tail with `os.rename` (lines 334-346). `buildFiles` models the build
directory after cpack. -/
def package_deb_run (env : DebEnv) (cmp : Archive → Archive → Bool)
    (root_dir version : String) (buildFiles : List DistFile)
    (dist : List DistFile) (now : Nat) : PublishResult × List DistFile :=
  let dist_dir := pathJoin root_dir "dist"
  if !env.is_debian_based then (⟨false, false, false⟩, dist)
  else if !env.is_cmake_installed then (⟨false, false, false⟩, dist)
  else if !env.cmake_lists_exists then (⟨false, false, false⟩, dist)
  else
    let dist1 := dist.filter fun f =>
      !(strEndsWith f.name ".deb" && !(strContains (pathJoin dist_dir f.name) version))
    if !env.cmake_ok then (⟨false, false, false⟩, dist1)
    else if !env.cpack_ok then (⟨false, false, false⟩, dist1)
    else
      let build_dir := pathJoin root_dir "build"
      let deb_files := buildFiles.filter (fun f => strEndsWith f.name ".deb")
      match deb_files with
      | [deb] =>
        if !(strContains (pathJoin build_dir deb.name) version) then
          (⟨false, false, false⟩, dist1)
        else
          deb_publish_tail cmp dist1 deb.name deb.content now
      | _ => (⟨false, false, false⟩, dist1)

/-- `package_rpm` (package.py lines 348-351): not implemented; it returns
a result dictionary with only `success=False` (the missing `existed` /
`copied` keys read as False downstream). -/
def package_rpm (root_dir version sudo_pwd : String) : PublishResult :=
  ⟨false, false, false⟩

/-- The platform predicates `package_all_linux` consults
(package.py lines 545-576); all live in utilities.common. -/
structure LinuxEnv where
  is_ubuntu : Bool
  is_redhat_based : Bool
  is_rpmbuild_installed : Bool
  deb : DebEnv
deriving DecidableEq

/-- `package_all_linux` (package.py lines 534-592) on the dist model.
`.error 1` models `sys.exit(1)`. The src.tar.gz step (only on Ubuntu)
involves autotools and installation testing, so it enters as the step
function `src_step`; the RPM branch (lines 559-568) and DEB branch
(lines 576-582) call `package_deb` — the RPM branch really does invoke
`package_deb`, see line 563 — each aborting the run when the returned
`success` is false. On success the summary lines of
`display_package_results` for the three result dictionaries are
returned together with the final dist. -/
def package_all_linux_run (env : LinuxEnv) (cmp : Archive → Archive → Bool)
    (root_dir version : String) (buildFiles : List DistFile)
    (src_step : List DistFile → PublishResult × List DistFile)
    (dist : List DistFile) (now : Nat) :
    Except Nat (List DistFile × List String) :=
  let src0 : ResultsDict := ⟨false, false, "src.tar.gz", false, false⟩
  let (srcRes, dist1) :=
    if env.is_ubuntu then
      let (r, d) := src_step dist
      (ResultsDict.mk true r.success src0.asset_file_name r.copied r.existed, d)
    else (src0, dist)
  if env.is_ubuntu && !srcRes.success then .error 1
  else
    let rpm0 : ResultsDict := ⟨false, false, ".rpm", false, false⟩
    if env.is_redhat_based && !env.is_rpmbuild_installed then .error 1
    else
      let (rpmRes, dist2) :=
        if env.is_redhat_based then
          let (r, d) := package_deb_run env.deb cmp root_dir version buildFiles dist1 now
          (ResultsDict.mk true r.success rpm0.asset_file_name r.copied r.existed, d)
        else (rpm0, dist1)
      if env.is_redhat_based && !rpmRes.success then .error 1
      else
        let deb0 : ResultsDict := ⟨false, false, ".deb", false, false⟩
        let (debRes, dist3) :=
          if env.deb.is_debian_based then
            let (r, d) := package_deb_run env.deb cmp root_dir version buildFiles dist2 now
            (ResultsDict.mk true r.success deb0.asset_file_name r.copied r.existed, d)
          else (deb0, dist2)
        if env.deb.is_debian_based && !debRes.success then .error 1
        else
          .ok (dist3,
            display_package_results srcRes ++ display_package_results rpmRes ++
              display_package_results debRes)

/-- How a run of `package_all_windows` can end abnormally: a Python
`TypeError` (from `zip_results.update(None)`, line 602, when
`package_windows_zip` returned `None`) or `sys.exit(code)`. -/
inductive RunErr
  | typeError
  | exitCode (code : Nat)
deriving DecidableEq

/-- `package_all_windows` (package.py lines 594-639) on the dist model.
The zip step runs first; a `None` return makes `zip_results.update`
raise `TypeError` (line 602). Otherwise `success=False` aborts with exit
code 1. `force_msi_overwrite` is set exactly when the zip step reported
`copied` (lines 611-613, with `built` just set to True), and is passed
as the msi `force`. Skipping msi when WiX is missing (lines 623-624)
leaves the msi result dictionary at its defaults. The returned triple is
the zip result, the msi result dictionary, and the final dist. -/
def package_all_windows_run (copy_ok create_zip_ok : Bool) (wix_installed : Bool)
    (msiEnv : MsiEnv) (cmpZip cmpMsi : Archive → Archive → Bool)
    (root_dir version : String) (zipCand : Archive) (buildFiles : List DistFile)
    (dist : List DistFile) (now : Nat) :
    Except RunErr (PublishResult × ResultsDict × List DistFile) :=
  match package_windows_zip_run copy_ok create_zip_ok cmpZip root_dir version zipCand dist now with
  | (none, _) => .error .typeError
  | (some zipRes, dist1) =>
    if !zipRes.success then .error (.exitCode 1)
    else
      let force_msi_overwrite := zipRes.copied
      let msi0 : ResultsDict := ⟨false, false, ".msi", false, false⟩
      if !wix_installed then .ok (zipRes, msi0, dist1)
      else
        match package_windows_msi_run msiEnv force_msi_overwrite cmpMsi root_dir version
            buildFiles dist1 now with
        | .error code => .error (.exitCode code)
        | .ok (msiRes, dist2) =>
          if !msiRes.success then .error (.exitCode 1)
          else
            .ok (zipRes,
              ResultsDict.mk true msiRes.success msi0.asset_file_name msiRes.copied
                msiRes.existed, dist2)

/-- The intermediate dist states of the msi replace step
(package.py lines 244-247): `os.makedirs` (no effect on files), then,
when a published file of the name exists, `os.remove(dist_file)`, then
`os.rename(temp_dist_file, dist_file)`. Each list entry is the dist
directory at one interruption point. -/
def msi_replace_trace (dist : List DistFile) (name : String) (cand : Archive)
    (now : Nat) : List (List DistFile) :=
  if (findFile dist name).isSome then
    [dist, removeFile dist name, writeFile (removeFile dist name) name cand now]
  else
    [dist, writeFile dist name cand now]

/-- The intermediate dist states of the deb / src.tar.gz replace step
(package.py lines 339 and 429): a single `os.rename` onto the
destination, atomic on POSIX. -/
def rename_replace_trace (dist : List DistFile) (name : String) (cand : Archive)
    (now : Nat) : List (List DistFile) :=
  [dist, writeFile dist name cand now]

/-- The intermediate dist states of the zip replace step (package.py
line 208): `shutil.copy` onto an existing destination opens and
truncates it, then streams the bytes, so an interruption mid-write
leaves the destination holding some partial content `part` — the
truncated file or any proper prefix of the candidate's bytes — rather
than the old or the new archive. Each list entry is the dist directory
at one interruption point. -/
def zip_copy_replace_trace (dist : List DistFile) (name : String)
    (cand part : Archive) (now : Nat) : List (List DistFile) :=
  [dist, writeFile dist name part now, writeFile dist name cand now]

/-- A directory state holds the archive `a` under `name`. -/
def dist_has (s : List DistFile) (name : String) (a : Archive) : Bool :=
  s.any (fun f => f.name == name && f.content == a)

/-- The stale purge of `package_src_tar_gz` (package.py lines 367-370):
every `*-src.tar.gz` in dist is deleted unless its globbed path ends
with the canonical asset name `ta-lib-VERSION-src.tar.gz` — an
endswith test on the path, unlike the substring test of
`delete_other_versions`. -/
def src_delete_stale (root version : String) (dist : List DistFile) :
    List DistFile :=
  dist.filter fun f =>
    !(globMatch "" "-src.tar.gz" f.name &&
      !(strEndsWith (pathJoin (pathJoin root "dist") f.name)
          ("ta-lib-" ++ version ++ "-src.tar.gz")))

/-- `package_src_tar_gz` restricted to its effect on the dist directory
(package.py lines 353-439): the stale purge (lines 367-370) runs first;
the autotools build, repack and end-user test steps (lines 382-417,
early failure returns after the purge) do not touch dist and enter as
the flag `ok`; then the publish tail under the canonical asset name
(line 361). -/
def package_src_tar_gz_dist (ok : Bool) (cmp : Archive → Archive → Bool)
    (root version : String) (cand : Archive) (dist : List DistFile)
    (now : Nat) : PublishResult × List DistFile :=
  let dist1 := src_delete_stale root version dist
  if !ok then (⟨false, false, false⟩, dist1)
  else
    src_publish_tail cmp dist1 ("ta-lib-" ++ version ++ "-src.tar.gz") cand now

/-- A published file of the given name exists (`os.path.exists(dist_file)`). -/
def published (dist : List DistFile) (name : String) : Bool :=
  (findFile dist name).isSome

/-- The format comparator's verdict on the candidate against the
published file of the given name: `false` when no published file exists
(in the source the comparator is then never consulted, by the
short-circuit `or`). -/
def equivTo (cmp : Archive → Archive → Bool) (dist : List DistFile)
    (name : String) (cand : Archive) : Bool :=
  match findFile dist name with
  | some f => cmp cand f.content
  | none => false

/-- The keep-predicate of the zip stale-version clean-up: a dist file
survives `delete_other_versions(dist_dir, "ta-lib-*.zip", version)`
unless its name matches the pattern and the version is not a substring
of its globbed path. -/
def zipKeep (root version : String) (f : DistFile) : Bool :=
  !(globMatch "ta-lib-" ".zip" f.name &&
    !(strContains (pathJoin (pathJoin root "dist") f.name) version))

/-- Sample one-member archive. -/
def sampleA : Archive := ⟨[("member.txt", [120])], 0⟩

/-- Same member list as `sampleA`, different build metadata. -/
def sampleA2 : Archive := ⟨[("member.txt", [120])], 7⟩

/-- Differs from `sampleA` in a member's bytes. -/
def sampleB : Archive := ⟨[("member.txt", [121])], 0⟩

theorem listContains_iff (hay needle : List Char) :
    listContains hay needle = true ↔ needle <:+: hay := by
  induction hay with
  | nil =>
    simp [listContains, List.isPrefixOf_iff_prefix]
  | cons c t ih =>
    rw [List.infix_cons_iff]
    simp [listContains, List.isPrefixOf_iff_prefix, ih]

theorem strContains_iff (hay needle : String) :
    strContains hay needle = true ↔ needle.data <:+: hay.data := by
  simp [strContains, listContains_iff]

theorem prefix_append_cons {v a b : List Char} {c : Char} (hc : c ∉ v)
    (h : v <+: a ++ c :: b) : v <+: a := by
  induction a generalizing v with
  | nil =>
    cases v with
    | nil => exact List.nil_prefix
    | cons y v2 =>
      exfalso
      rw [List.nil_append, List.cons_prefix_cons] at h
      exact hc (h.1 ▸ List.mem_cons_self y v2)
  | cons x a2 ih =>
    cases v with
    | nil => exact List.nil_prefix
    | cons y v2 =>
      rw [List.cons_append, List.cons_prefix_cons] at h
      rw [List.cons_prefix_cons]
      refine ⟨h.1, ih ?_ h.2⟩
      intro hm
      exact hc (List.mem_cons_of_mem y hm)

theorem infix_append_cons_iff {v a b : List Char} {c : Char} (hc : c ∉ v) :
    v <:+: a ++ c :: b ↔ v <:+: a ∨ v <:+: b := by
  constructor
  · intro h
    induction a generalizing v with
    | nil =>
      rw [List.nil_append, List.infix_cons_iff] at h
      rcases h with h | h
      · have hv : v <+: ([] : List Char) := prefix_append_cons hc h
        left
        exact (List.prefix_nil.mp hv) ▸ List.infix_refl []
      · exact Or.inr h
    | cons x a2 ih =>
      rw [List.cons_append, List.infix_cons_iff] at h
      rcases h with h | h
      · exact Or.inl (List.IsPrefix.isInfix (prefix_append_cons hc h))
      · rcases ih hc h with h2 | h2
        · exact Or.inl (List.infix_cons h2)
        · exact Or.inr h2
  · intro h
    rcases h with h | h
    · exact h.trans ⟨[], c :: b, by simp⟩
    · exact h.trans ⟨a ++ [c], [], by simp⟩

theorem strContains_pathJoin (d n v : String) (hv : ('/' : Char) ∉ v.data) :
    strContains (pathJoin d n) v = (strContains d v || strContains n v) := by
  have hdata : (pathJoin d n).data = d.data ++ '/' :: n.data := by
    simp [pathJoin]
  rcases h : strContains d v || strContains n v with _ | _
  · simp only [Bool.or_eq_false_iff] at h
    rw [← Bool.not_eq_true]
    intro hcontra
    rw [strContains_iff, hdata, infix_append_cons_iff hv] at hcontra
    rcases hcontra with hc2 | hc2
    · rw [← strContains_iff] at hc2
      rw [h.1] at hc2
      exact Bool.false_ne_true hc2
    · rw [← strContains_iff] at hc2
      rw [h.2] at hc2
      exact Bool.false_ne_true hc2
  · rw [Bool.or_eq_true] at h
    rw [strContains_iff, hdata, infix_append_cons_iff hv]
    rcases h with h | h
    · exact Or.inl ((strContains_iff d v).mp h)
    · exact Or.inr ((strContains_iff n v).mp h)

theorem strContains_middle (x y v : String) :
    strContains (x ++ v ++ y) v = true := by
  rw [strContains_iff]
  exact ⟨x.data, y.data, by simp⟩

theorem findFile_writeFile (l : List DistFile) (name : String) (c : Archive)
    (t : Nat) : findFile (writeFile l name c t) name = some ⟨name, c, t⟩ := by
  rw [findFile, writeFile, removeFile, List.find?_append]
  have h1 : List.find? (fun f => f.name == name)
      (l.filter (fun f => !(f.name == name))) = none := by
    apply List.find?_eq_none.mpr
    intro f hf
    rw [List.mem_filter] at hf
    simpa using hf.2
  rw [h1]
  simp

theorem dist_has_writeFile (l : List DistFile) (name : String) (c a : Archive)
    (t : Nat) : dist_has (writeFile l name c t) name a = (c == a) := by
  rw [dist_has, writeFile, removeFile, List.any_append]
  have h1 : (l.filter (fun f => !(f.name == name))).any
      (fun f => f.name == name && f.content == a) = false := by
    apply List.any_eq_false.mpr
    intro f hf
    rw [List.mem_filter] at hf
    simp only [Bool.not_eq_true'] at hf
    simp [hf.2]
  rw [h1]
  simp

theorem suffix_append_cons_iff {v a b : List Char} {c : Char} (hc : c ∉ v) :
    v <:+ a ++ c :: b ↔ v <:+ b := by
  constructor
  · intro h
    have h2 : v.reverse <+: (a ++ c :: b).reverse := List.reverse_prefix.mpr h
    have h3 : (a ++ c :: b).reverse = b.reverse ++ c :: a.reverse := by simp
    rw [h3] at h2
    have h4 : v.reverse <+: b.reverse :=
      prefix_append_cons (by simpa using hc) h2
    exact List.reverse_prefix.mp h4
  · intro h
    have h2 : b <:+ a ++ c :: b := by
      have h3 := List.suffix_append (a ++ [c]) b
      simpa using h3
    exact h.trans h2

theorem strEndsWith_pathJoin (d n v : String) (hv : ('/' : Char) ∉ v.data) :
    strEndsWith (pathJoin d n) v = strEndsWith n v := by
  have hdata : (pathJoin d n).data = d.data ++ '/' :: n.data := by
    simp [pathJoin]
  have hiff : v.data <:+ (pathJoin d n).data ↔ v.data <:+ n.data := by
    rw [hdata]
    exact suffix_append_cons_iff hv
  rw [strEndsWith, strEndsWith]
  rcases h2 : v.data.isSuffixOf n.data with _ | _
  · apply Bool.eq_false_iff.mpr
    intro hcontra
    rw [List.isSuffixOf_iff_suffix] at hcontra
    have h3 := hiff.mp hcontra
    rw [← List.isSuffixOf_iff_suffix, h2] at h3
    exact Bool.false_ne_true h3
  · rw [List.isSuffixOf_iff_suffix] at h2 ⊢
    exact hiff.mpr h2

theorem strEndsWith_refl (s : String) : strEndsWith s s = true := by
  rw [strEndsWith, List.isSuffixOf_iff_suffix]

theorem src_asset_no_slash (version : String)
    (hs : ('/' : Char) ∉ version.data) :
    ('/' : Char) ∉ ("ta-lib-" ++ version ++ "-src.tar.gz").data := by
  intro hmem
  have hdata : ("ta-lib-" ++ version ++ "-src.tar.gz").data =
      "ta-lib-".data ++ version.data ++ "-src.tar.gz".data := by simp
  rw [hdata] at hmem
  rcases List.mem_append.mp hmem with h | h
  · rcases List.mem_append.mp h with h2 | h2
    · exact absurd h2 (by decide)
    · exact hs h2
  · exact absurd h (by decide)

theorem msi_tail_preserves (cmp : Archive → Archive → Bool) (force : Bool)
    (dist : List DistFile) (nm : String) (c : Archive) (t : Nat) (g : DistFile)
    (hg : g ∈ dist) (hne : (g.name == nm) = false) :
    g ∈ (msi_publish_tail cmp force dist nm c t).2 := by
  dsimp only [msi_publish_tail]
  split
  · rw [writeFile, removeFile]
    apply List.mem_append_left
    rw [List.mem_filter]
    exact ⟨hg, by simp [hne]⟩
  · exact hg

/-- Membership in the deb publish tail's resulting dist: an old file or
the freshly renamed candidate. -/
theorem tail_mem_deb (cmp : Archive → Archive → Bool) (d : List DistFile)
    (n : String) (c : Archive) (t : Nat) :
    ∀ g ∈ (deb_publish_tail cmp d n c t).2, g ∈ d ∨ g = ⟨n, c, t⟩ := by
  intro g hg
  dsimp only [deb_publish_tail] at hg
  split at hg
  · rw [writeFile, removeFile, List.mem_append] at hg
    rcases hg with hg | hg
    · exact Or.inl (List.mem_of_mem_filter hg)
    · rw [List.mem_singleton] at hg
      exact Or.inr hg
  · exact Or.inl hg

/-- Membership in the src publish tail's resulting dist: an old file or
the freshly renamed candidate. -/
theorem tail_mem_src (cmp : Archive → Archive → Bool) (d : List DistFile)
    (n : String) (c : Archive) (t : Nat) :
    ∀ g ∈ (src_publish_tail cmp d n c t).2, g ∈ d ∨ g = ⟨n, c, t⟩ := by
  intro g hg
  dsimp only [src_publish_tail] at hg
  split at hg
  · rw [writeFile, removeFile, List.mem_append] at hg
    rcases hg with hg | hg
    · exact Or.inl (List.mem_of_mem_filter hg)
    · rw [List.mem_singleton] at hg
      exact Or.inr hg
  · exact Or.inl hg

/-- Every file in the dist directory after a `package_deb` run whose
dependency checks passed either survived the stale purge (so, if it is
a .deb, its globbed dist path contains the version) or is the freshly
renamed build output, whose globbed build path contains the version
(the check of package.py lines 317-320). -/
theorem package_deb_run_mem (env : DebEnv) (cmp : Archive → Archive → Bool)
    (root version : String) (buildFiles dist : List DistFile) (now : Nat)
    (hdebian : env.is_debian_based = true) (hcm : env.is_cmake_installed = true)
    (hcl : env.cmake_lists_exists = true) :
    ∀ g ∈ (package_deb_run env cmp root version buildFiles dist now).2,
      (g ∈ dist ∧ (strEndsWith g.name ".deb" = true →
        strContains (pathJoin (pathJoin root "dist") g.name) version = true)) ∨
      strContains (pathJoin (pathJoin root "build") g.name) version = true := by
  have hdist1 : ∀ g ∈ dist.filter (fun f =>
      !(strEndsWith f.name ".deb" &&
        !(strContains (pathJoin (pathJoin root "dist") f.name) version))),
      g ∈ dist ∧ (strEndsWith g.name ".deb" = true →
        strContains (pathJoin (pathJoin root "dist") g.name) version = true) := by
    intro g hg
    rw [List.mem_filter] at hg
    refine ⟨hg.1, fun he => ?_⟩
    have h2 := hg.2
    rw [he] at h2
    simpa using h2
  rcases env with ⟨ed, ec, el, emk, epk⟩
  dsimp only at hdebian hcm hcl
  subst hdebian
  subst hcm
  subst hcl
  intro g hg
  cases emk with
  | false =>
    rw [show (package_deb_run ⟨true, true, true, false, epk⟩ cmp root version
        buildFiles dist now).2 = dist.filter (fun f =>
          !(strEndsWith f.name ".deb" &&
            !(strContains (pathJoin (pathJoin root "dist") f.name) version)))
      from by simp [package_deb_run]] at hg
    exact Or.inl (hdist1 g hg)
  | true =>
    cases epk with
    | false =>
      rw [show (package_deb_run ⟨true, true, true, true, false⟩ cmp root version
          buildFiles dist now).2 = dist.filter (fun f =>
            !(strEndsWith f.name ".deb" &&
              !(strContains (pathJoin (pathJoin root "dist") f.name) version)))
        from by simp [package_deb_run]] at hg
      exact Or.inl (hdist1 g hg)
    | true =>
      rcases hdf : buildFiles.filter (fun f => strEndsWith f.name ".deb")
          with _ | ⟨x, _ | ⟨y, tl⟩⟩
      · rw [show (package_deb_run ⟨true, true, true, true, true⟩ cmp root version
            buildFiles dist now).2 = dist.filter (fun f =>
              !(strEndsWith f.name ".deb" &&
                !(strContains (pathJoin (pathJoin root "dist") f.name) version)))
          from by simp [package_deb_run, hdf]] at hg
        exact Or.inl (hdist1 g hg)
      · rcases hv : strContains (pathJoin (pathJoin root "build") x.name) version
            with _ | _
        · rw [show (package_deb_run ⟨true, true, true, true, true⟩ cmp root version
              buildFiles dist now).2 = dist.filter (fun f =>
                !(strEndsWith f.name ".deb" &&
                  !(strContains (pathJoin (pathJoin root "dist") f.name) version)))
            from by simp [package_deb_run, hdf, hv]] at hg
          exact Or.inl (hdist1 g hg)
        · rw [show (package_deb_run ⟨true, true, true, true, true⟩ cmp root version
              buildFiles dist now).2 =
              (deb_publish_tail cmp (dist.filter (fun f =>
                !(strEndsWith f.name ".deb" &&
                  !(strContains (pathJoin (pathJoin root "dist") f.name) version))))
               x.name x.content now).2
            from by simp [package_deb_run, hdf, hv]] at hg
          rcases tail_mem_deb cmp _ x.name x.content now g hg with h | h
          · exact Or.inl (hdist1 g h)
          · rw [h]
            exact Or.inr hv
      · rw [show (package_deb_run ⟨true, true, true, true, true⟩ cmp root version
            buildFiles dist now).2 = dist.filter (fun f =>
              !(strEndsWith f.name ".deb" &&
                !(strContains (pathJoin (pathJoin root "dist") f.name) version)))
          from by simp [package_deb_run, hdf]] at hg
        exact Or.inl (hdist1 g hg)

/-- Every file in the dist directory after the `package_src_tar_gz` flow
either survived the endswith-based stale purge or is the canonical
asset itself. -/
theorem src_dist_mem (ok : Bool) (cmp : Archive → Archive → Bool)
    (root version : String) (cand : Archive) (dist : List DistFile) (t : Nat) :
    ∀ g ∈ (package_src_tar_gz_dist ok cmp root version cand dist t).2,
      (g ∈ dist ∧ (globMatch "" "-src.tar.gz" g.name = true →
        strEndsWith (pathJoin (pathJoin root "dist") g.name)
          ("ta-lib-" ++ version ++ "-src.tar.gz") = true)) ∨
      g.name = "ta-lib-" ++ version ++ "-src.tar.gz" := by
  have hdist1 : ∀ g ∈ src_delete_stale root version dist,
      g ∈ dist ∧ (globMatch "" "-src.tar.gz" g.name = true →
        strEndsWith (pathJoin (pathJoin root "dist") g.name)
          ("ta-lib-" ++ version ++ "-src.tar.gz") = true) := by
    intro g hg
    rw [src_delete_stale, List.mem_filter] at hg
    refine ⟨hg.1, fun he => ?_⟩
    have h2 := hg.2
    rw [he] at h2
    simpa using h2
  intro g hg
  cases ok with
  | false =>
    rw [show (package_src_tar_gz_dist false cmp root version cand dist t).2 =
        src_delete_stale root version dist
      from by simp [package_src_tar_gz_dist]] at hg
    exact Or.inl (hdist1 g hg)
  | true =>
    rw [show (package_src_tar_gz_dist true cmp root version cand dist t).2 =
        (src_publish_tail cmp (src_delete_stale root version dist)
          ("ta-lib-" ++ version ++ "-src.tar.gz") cand t).2
      from by simp [package_src_tar_gz_dist]] at hg
    rcases tail_mem_src cmp _ _ cand t g hg with h | h
    · exact Or.inl (hdist1 g h)
    · rw [h]
      exact Or.inr rfl

/-- The src publish tail always succeeds and leaves the asset name
present (it writes the candidate when the name was absent). -/
theorem src_tail_present (cmp : Archive → Archive → Bool) (d : List DistFile)
    (n : String) (c : Archive) (t : Nat) :
    (src_publish_tail cmp d n c t).1.success = true ∧
    (findFile (src_publish_tail cmp d n c t).2 n).isSome = true := by
  cases hf : findFile d n with
  | none => simp [src_publish_tail, hf, findFile_writeFile]
  | some f =>
    cases hc : cmp c f.content <;>
      simp [src_publish_tail, hf, hc, findFile_writeFile]

/-- C1: in every format's publish step (zip, msi, deb, src.tar.gz), the
candidate is copied into the dist directory iff force is true (only the
msi step takes a force flag), or no published file of the asset name
exists, or the format comparator reports the candidate and the published
file as different; when copied, dist gains the candidate under the asset
name and `display_package_results` prints "Created" when no previous
file existed and "Updated" when one existed; when not copied, dist is
left as it was — the candidate is not placed into it — and the printed
outcome is "No changes". -/
theorem c1_publish_decision_and_outcome
    (cmp : Archive → Archive → Bool) (dist : List DistFile) (name : String)
    (cand : Archive) (now : Nat) (force : Bool) :
    (msi_publish_tail cmp force dist name cand now =
      (⟨true, published dist name,
         force || !published dist name || !equivTo cmp dist name cand⟩,
       if force || !published dist name || !equivTo cmp dist name cand
       then writeFile dist name cand now else dist)) ∧
    (zip_publish_tail cmp dist name cand now =
      (⟨true, published dist name,
         !published dist name || !equivTo cmp dist name cand⟩,
       if !published dist name || !equivTo cmp dist name cand
       then writeFile dist name cand now else dist)) ∧
    (deb_publish_tail cmp dist name cand now =
      (⟨true, published dist name,
         !published dist name || !equivTo cmp dist name cand⟩,
       if !published dist name || !equivTo cmp dist name cand
       then writeFile dist name cand now else dist)) ∧
    (src_publish_tail cmp dist name cand now =
      (⟨true, published dist name,
         !published dist name || !equivTo cmp dist name cand⟩,
       if !published dist name || !equivTo cmp dist name cand
       then writeFile dist name cand now else dist)) ∧
    (∀ (e c : Bool) (nm : String),
      display_package_results ⟨true, true, nm, c, e⟩ =
        [if c then (if e then "Updated dist/" ++ nm else "Created dist/" ++ nm)
         else "No changes for dist/" ++ nm]) := by
  refine ⟨?_, ?_, ?_, ?_, ?_⟩
  · cases h : findFile dist name with
    | none => cases force <;> simp [msi_publish_tail, published, equivTo, h]
    | some f =>
      cases force <;> cases hc : cmp cand f.content <;>
        simp [msi_publish_tail, published, equivTo, h, hc]
  · cases h : findFile dist name with
    | none => simp [zip_publish_tail, published, equivTo, h]
    | some f =>
      cases hc : cmp cand f.content <;>
        simp [zip_publish_tail, published, equivTo, h, hc]
  · cases h : findFile dist name with
    | none => simp [deb_publish_tail, published, equivTo, h]
    | some f =>
      cases hc : cmp cand f.content <;>
        simp [deb_publish_tail, published, equivTo, h, hc]
  · cases h : findFile dist name with
    | none => simp [src_publish_tail, published, equivTo, h]
    | some f =>
      cases hc : cmp cand f.content <;>
        simp [src_publish_tail, published, equivTo, h, hc]
  · intro e c nm
    cases c <;> cases e <;> simp [display_package_results]

/-- C5: when a published msi of the asset name exists and the comparator
finds the candidate equivalent to it, the forced call still copies the
candidate over it and reports `updated` (copied and existed both true),
while the unforced call leaves dist untouched and reports "No changes". -/
theorem c5_force_overwrite (cmp : Archive → Archive → Bool)
    (dist : List DistFile) (name : String) (cand : Archive) (now : Nat)
    (f : DistFile) (h1 : findFile dist name = some f)
    (h2 : cmp cand f.content = true) :
    msi_publish_tail cmp true dist name cand now =
      (⟨true, true, true⟩, writeFile dist name cand now) ∧
    msi_publish_tail cmp false dist name cand now = (⟨true, true, false⟩, dist) ∧
    display_package_results ⟨true, true, name, true, true⟩ =
      ["Updated dist/" ++ name] ∧
    display_package_results ⟨true, true, name, false, true⟩ =
      ["No changes for dist/" ++ name] := by
  refine ⟨?_, ?_, ?_, ?_⟩ <;>
    simp [msi_publish_tail, h1, h2, display_package_results]

/-- C5 at a concrete input: a published msi equivalent to the candidate,
forced and unforced. -/
theorem c5_force_overwrite_witness :
    findFile [⟨"ta-lib-0.6.4-win64.msi", sampleA, 0⟩] "ta-lib-0.6.4-win64.msi" =
      some ⟨"ta-lib-0.6.4-win64.msi", sampleA, 0⟩ ∧
    compare_zip_files sampleA2 sampleA = true ∧
    (msi_publish_tail compare_zip_files true [⟨"ta-lib-0.6.4-win64.msi", sampleA, 0⟩]
        "ta-lib-0.6.4-win64.msi" sampleA2 1 =
      (⟨true, true, true⟩,
        writeFile [⟨"ta-lib-0.6.4-win64.msi", sampleA, 0⟩] "ta-lib-0.6.4-win64.msi"
          sampleA2 1) ∧
     msi_publish_tail compare_zip_files false [⟨"ta-lib-0.6.4-win64.msi", sampleA, 0⟩]
        "ta-lib-0.6.4-win64.msi" sampleA2 1 =
      (⟨true, true, false⟩, [⟨"ta-lib-0.6.4-win64.msi", sampleA, 0⟩]) ∧
     display_package_results ⟨true, true, "ta-lib-0.6.4-win64.msi", true, true⟩ =
       ["Updated dist/" ++ "ta-lib-0.6.4-win64.msi"] ∧
     display_package_results ⟨true, true, "ta-lib-0.6.4-win64.msi", false, true⟩ =
       ["No changes for dist/" ++ "ta-lib-0.6.4-win64.msi"]) :=
  ⟨by decide, by decide,
    c5_force_overwrite compare_zip_files [⟨"ta-lib-0.6.4-win64.msi", sampleA, 0⟩]
      "ta-lib-0.6.4-win64.msi" sampleA2 1 ⟨"ta-lib-0.6.4-win64.msi", sampleA, 0⟩
      (by decide) (by decide)⟩

/-- C2 as stated is false on the code: the msi replace (package.py lines
245-247) removes the old published file and only then renames the new one
in, so at the interruption point between the two steps the publish
location holds neither the old file nor the new one. Concrete run: dist
holds the old msi, the candidate differs; the middle state of the replace
trace contains neither content under the asset name. -/
theorem c2_counterexample :
    ¬ ((msi_replace_trace [⟨"ta-lib-0.6.4-win64.msi", sampleA, 0⟩]
          "ta-lib-0.6.4-win64.msi" sampleB 1).all
        (fun s =>
          dist_has s "ta-lib-0.6.4-win64.msi" sampleA ||
          dist_has s "ta-lib-0.6.4-win64.msi" sampleB) = true) := by
  decide

/-- C2 amended: only the deb and src.tar.gz replace is a single
`os.rename`, and every interruption point of it holds the old file or
the new one; the msi replace is `os.remove` of the old file followed by
`os.rename` of the candidate — delete-old-then-move-new, not the claimed
move or copy-then-delete-old — so its middle interruption point holds no
file of the asset name at all; and the zip replace overwrites the
published file with a plain `shutil.copy` — neither a rename nor
copy-then-delete-old — so an interruption mid-write leaves the publish
location holding a partially written file that is neither the old nor
the new archive. -/
theorem c2_amended_replace (dist : List DistFile) (name : String)
    (fOld : DistFile) (cand : Archive) (now : Nat)
    (h : findFile dist name = some fOld) :
    (∀ s ∈ rename_replace_trace dist name cand now,
       dist_has s name fOld.content = true ∨ dist_has s name cand = true) ∧
    msi_replace_trace dist name cand now =
      [dist, removeFile dist name, writeFile (removeFile dist name) name cand now] ∧
    (∀ a : Archive, dist_has (removeFile dist name) name a = false) ∧
    (∀ part : Archive, part ≠ fOld.content → part ≠ cand →
      ∃ s ∈ zip_copy_replace_trace dist name cand part now,
        dist_has s name fOld.content = false ∧ dist_has s name cand = false ∧
        dist_has s name part = true) := by
  have h2 : List.find? (fun f => f.name == name) dist = some fOld := h
  have hmem : fOld ∈ dist := List.mem_of_find?_eq_some h2
  have hname : (fOld.name == name) = true := by
    have h3 := List.find?_some h2
    simpa using h3
  refine ⟨?_, ?_, ?_, ?_⟩
  · intro s hs
    simp only [rename_replace_trace, List.mem_cons, List.mem_singleton,
      List.not_mem_nil, or_false] at hs
    rcases hs with hs | hs
    · left
      rw [hs]
      simp only [dist_has, List.any_eq_true]
      exact ⟨fOld, hmem, by simp [hname]⟩
    · right
      rw [hs]
      simp [dist_has, writeFile, List.any_append]
  · simp [msi_replace_trace, h]
  · intro a
    apply List.any_eq_false.mpr
    intro f hf
    rw [removeFile, List.mem_filter] at hf
    simp only [Bool.not_eq_true', beq_eq_false_iff_ne] at hf
    simp only [Bool.and_eq_true, beq_iff_eq, not_and]
    intro hn
    exact absurd hn hf.2
  · intro part hp1 hp2
    refine ⟨writeFile dist name part now, ?_, ?_, ?_, ?_⟩
    · simp [zip_copy_replace_trace]
    · rw [dist_has_writeFile]
      exact beq_eq_false_iff_ne.mpr hp1
    · rw [dist_has_writeFile]
      exact beq_eq_false_iff_ne.mpr hp2
    · rw [dist_has_writeFile]
      exact beq_self_eq_true part

/-- C2 amended, at a concrete input: a dist holding an old msi and a
differing candidate. -/
theorem c2_amended_replace_witness :
    findFile [⟨"ta-lib-0.6.4-win64.msi", sampleA, 0⟩] "ta-lib-0.6.4-win64.msi" =
      some ⟨"ta-lib-0.6.4-win64.msi", sampleA, 0⟩ ∧
    ((∀ s ∈ rename_replace_trace [⟨"ta-lib-0.6.4-win64.msi", sampleA, 0⟩]
          "ta-lib-0.6.4-win64.msi" sampleB 1,
        dist_has s "ta-lib-0.6.4-win64.msi"
            (DistFile.mk "ta-lib-0.6.4-win64.msi" sampleA 0).content = true ∨
          dist_has s "ta-lib-0.6.4-win64.msi" sampleB = true) ∧
     msi_replace_trace [⟨"ta-lib-0.6.4-win64.msi", sampleA, 0⟩]
         "ta-lib-0.6.4-win64.msi" sampleB 1 =
       [[⟨"ta-lib-0.6.4-win64.msi", sampleA, 0⟩],
        removeFile [⟨"ta-lib-0.6.4-win64.msi", sampleA, 0⟩] "ta-lib-0.6.4-win64.msi",
        writeFile
          (removeFile [⟨"ta-lib-0.6.4-win64.msi", sampleA, 0⟩] "ta-lib-0.6.4-win64.msi")
          "ta-lib-0.6.4-win64.msi" sampleB 1] ∧
     (∀ a : Archive,
        dist_has
          (removeFile [⟨"ta-lib-0.6.4-win64.msi", sampleA, 0⟩] "ta-lib-0.6.4-win64.msi")
          "ta-lib-0.6.4-win64.msi" a = false) ∧
     (∀ part : Archive,
        part ≠ (DistFile.mk "ta-lib-0.6.4-win64.msi" sampleA 0).content →
        part ≠ sampleB →
        ∃ s ∈ zip_copy_replace_trace [⟨"ta-lib-0.6.4-win64.msi", sampleA, 0⟩]
            "ta-lib-0.6.4-win64.msi" sampleB part 1,
          dist_has s "ta-lib-0.6.4-win64.msi"
              (DistFile.mk "ta-lib-0.6.4-win64.msi" sampleA 0).content = false ∧
          dist_has s "ta-lib-0.6.4-win64.msi" sampleB = false ∧
          dist_has s "ta-lib-0.6.4-win64.msi" part = true)) :=
  ⟨by decide,
    c2_amended_replace [⟨"ta-lib-0.6.4-win64.msi", sampleA, 0⟩]
      "ta-lib-0.6.4-win64.msi" ⟨"ta-lib-0.6.4-win64.msi", sampleA, 0⟩ sampleB 1
      (by decide)⟩

/-- C3 as stated is false on the code: with a build directory containing
zero .deb files, `package_deb` does fail, but the dist directory is NOT
left unmodified — the stale-version clean-up (package.py lines 282-285)
has already deleted the old-version .deb from dist before the ambiguity
check runs. Concrete run: dist held one 0.5.0 deb, the failing operation
returns with dist emptied. -/
theorem c3_counterexample :
    package_deb_run ⟨true, true, true, true, true⟩ compare_zip_files "/r" "0.6.4"
        [] [⟨"ta-lib-0.5.0-amd64.deb", sampleA, 0⟩] 1 =
      (⟨false, false, false⟩, []) ∧
    ([] : List DistFile) ≠ [⟨"ta-lib-0.5.0-amd64.deb", sampleA, 0⟩] := by
  decide

/-- C3 amended: when the build directory holds zero or two-plus files of
the format's extension, the deb publish fails (`success=False`, nothing
copied) and the msi publish aborts the process with exit code 1 (the
spec's AmbiguousArtifactError); no file is added to the publish
location, but the deb flow may already have deleted stale other-version
artifacts from it, so dist afterwards is a sublist of what it was, not
necessarily unmodified. -/
theorem c3_amended_ambiguity (envD : DebEnv) (envM : MsiEnv) (force : Bool)
    (cmp : Archive → Archive → Bool) (root version : String)
    (buildFiles dist : List DistFile) (now : Nat)
    (hdeb : (buildFiles.filter (fun f => strEndsWith f.name ".deb")).length ≠ 1)
    (hmsi : ((buildFiles.map (fun f => f.name)).filter
        (fun n => strEndsWith n ".msi")).length ≠ 1)
    (hdot : envM.dotnet = true) (hwix : envM.wix = true)
    (hbuild : envM.build_ok = true) :
    (package_deb_run envD cmp root version buildFiles dist now).1.success = false ∧
    (package_deb_run envD cmp root version buildFiles dist now).1.copied = false ∧
    (package_deb_run envD cmp root version buildFiles dist now).2.Sublist dist ∧
    package_windows_msi_run envM force cmp root version buildFiles dist now =
      .error 1 := by
  have hmsiRun : package_windows_msi_run envM force cmp root version buildFiles dist now =
      .error 1 := by
    rcases hfound : (buildFiles.map (fun f => f.name)).filter
        (fun n => strEndsWith n ".msi") with _ | ⟨x, _ | ⟨y, t⟩⟩
    · simp [package_windows_msi_run, hdot, hwix, hbuild, find_asset_with_ext, hfound]
    · exact absurd (by simp [hfound]) hmsi
    · simp [package_windows_msi_run, hdot, hwix, hbuild, find_asset_with_ext, hfound]
  refine ⟨?_, ?_, ?_, hmsiRun⟩ <;>
  · rcases envD with ⟨d, c, l, mk, pk⟩
    cases d <;> cases c <;> cases l <;> cases mk <;> cases pk <;>
      simp [package_deb_run] <;>
    · rcases hdf : buildFiles.filter (fun f => strEndsWith f.name ".deb")
        with _ | ⟨x, _ | ⟨y, t⟩⟩
      · simp [hdf, List.filter_sublist]
      · exact absurd (by simp [hdf]) hdeb
      · simp [hdf, List.filter_sublist]

/-- C3 amended, at a concrete input: empty build directory (zero .deb,
zero .msi), one stale deb in dist. -/
theorem c3_amended_ambiguity_witness :
    (([] : List DistFile).filter (fun f => strEndsWith f.name ".deb")).length ≠ 1 ∧
    ((([] : List DistFile).map (fun f => f.name)).filter
        (fun n => strEndsWith n ".msi")).length ≠ 1 ∧
    ((package_deb_run ⟨true, true, true, true, true⟩ compare_zip_files "/r" "0.6.4"
        [] [⟨"ta-lib-0.5.0-amd64.deb", sampleA, 0⟩] 1).1.success = false ∧
     (package_deb_run ⟨true, true, true, true, true⟩ compare_zip_files "/r" "0.6.4"
        [] [⟨"ta-lib-0.5.0-amd64.deb", sampleA, 0⟩] 1).1.copied = false ∧
     (package_deb_run ⟨true, true, true, true, true⟩ compare_zip_files "/r" "0.6.4"
        [] [⟨"ta-lib-0.5.0-amd64.deb", sampleA, 0⟩] 1).2.Sublist
       [⟨"ta-lib-0.5.0-amd64.deb", sampleA, 0⟩] ∧
     package_windows_msi_run ⟨true, true, true⟩ false compare_zip_files "/r" "0.6.4"
        [] [⟨"ta-lib-0.5.0-amd64.deb", sampleA, 0⟩] 1 = .error 1) :=
  ⟨by decide, by decide,
    c3_amended_ambiguity ⟨true, true, true, true, true⟩ ⟨true, true, true⟩ false
      compare_zip_files "/r" "0.6.4" [] [⟨"ta-lib-0.5.0-amd64.deb", sampleA, 0⟩] 1
      (by decide) (by decide) rfl rfl rfl⟩

theorem strContains_pathJoin_right (d n v : String) (h : strContains n v = true) :
    strContains (pathJoin d n) v = true := by
  rw [strContains_iff] at h ⊢
  refine h.trans ⟨(d ++ "/").data, [], ?_⟩
  simp [pathJoin]

theorem delete_other_versions_zip (root version : String) (l : List DistFile) :
    delete_other_versions (pathJoin root "dist") "ta-lib-" ".zip" version l =
      l.filter (zipKeep root version) := rfl

theorem package_windows_zip_dist_eq (cmp : Archive → Archive → Bool)
    (root version : String) (cand : Archive) (dist : List DistFile) (t : Nat) :
    package_windows_zip_dist cmp root version cand dist t =
      zip_publish_tail cmp
        (delete_other_versions (pathJoin root "dist") "ta-lib-" ".zip" version dist)
        ("ta-lib-" ++ version ++ "-win64.zip") cand t := rfl

theorem zipKeep_asset (root version : String) :
    ∀ (c : Archive) (t : Nat),
      zipKeep root version ⟨"ta-lib-" ++ version ++ "-win64.zip", c, t⟩ = true := by
  intro c t
  have h : strContains (pathJoin (pathJoin root "dist")
      ("ta-lib-" ++ version ++ "-win64.zip")) version = true :=
    strContains_pathJoin_right _ _ _ (strContains_middle "ta-lib-" "-win64.zip" version)
  simp [zipKeep, h]

/-- One full zip publish (stale clean-up plus publish tail, with the
spec-modelled comparator): it always reports success, every file of the
resulting dist survives the stale filter, and the asset name is
published with exactly the candidate's member list. -/
theorem zip_dist_state (root version : String) (cand : Archive)
    (dist : List DistFile) (t : Nat) :
    (package_windows_zip_dist compare_zip_files root version cand dist t).1.success
        = true ∧
    (∀ g ∈ (package_windows_zip_dist compare_zip_files root version cand dist t).2,
       zipKeep root version g = true) ∧
    ∃ f, findFile (package_windows_zip_dist compare_zip_files root version cand dist t).2
        ("ta-lib-" ++ version ++ "-win64.zip") = some f ∧
      f.content.members = cand.members := by
  have hwrite : ∀ (l : List DistFile) (hl : ∀ g ∈ l, zipKeep root version g = true),
      ∀ g ∈ writeFile l ("ta-lib-" ++ version ++ "-win64.zip") cand t,
        zipKeep root version g = true := by
    intro l hl g hg
    rw [writeFile, removeFile, List.mem_append] at hg
    rcases hg with hg | hg
    · exact hl g (List.mem_of_mem_filter hg)
    · rw [List.mem_singleton] at hg
      rw [hg]
      exact zipKeep_asset root version cand t
  have hsub : ∀ g ∈ dist.filter (zipKeep root version), zipKeep root version g = true := by
    intro g hg
    exact (List.mem_filter.mp hg).2
  dsimp only [package_windows_zip_dist]
  rw [delete_other_versions_zip]
  cases hf : findFile (dist.filter (zipKeep root version))
      ("ta-lib-" ++ version ++ "-win64.zip") with
  | none =>
    refine ⟨by simp [zip_publish_tail, hf], ?_, ?_⟩
    · simpa [zip_publish_tail, hf] using hwrite _ hsub
    · refine ⟨⟨"ta-lib-" ++ version ++ "-win64.zip", cand, t⟩, ?_, rfl⟩
      simp [zip_publish_tail, hf, findFile_writeFile]
  | some f =>
    cases hc : compare_zip_files cand f.content with
    | false =>
      refine ⟨by simp [zip_publish_tail, hf, hc], ?_, ?_⟩
      · simpa [zip_publish_tail, hf, hc] using hwrite _ hsub
      · refine ⟨⟨"ta-lib-" ++ version ++ "-win64.zip", cand, t⟩, ?_, rfl⟩
        simp [zip_publish_tail, hf, hc, findFile_writeFile]
    | true =>
      refine ⟨by simp [zip_publish_tail, hf, hc], ?_, ?_⟩
      · simpa [zip_publish_tail, hf, hc] using hsub
      · refine ⟨f, ?_, ?_⟩
        · simpa [zip_publish_tail, hf, hc] using hf
        · rw [compare_zip_files, beq_iff_eq] at hc
          exact hc.symm

/-- C4: publishing a candidate with the same archive content (identical
member names and bytes; build metadata may differ) right after a first
publish reports `unchanged` on the second attempt — success with
copied = false and existed = true — and leaves the dist directory
byte-for-byte as the first attempt left it, modification times included.
The zip comparator is modelled from the spec (utilities/files.py is not
among the sources): equivalence is identity of the ordered member list,
metadata ignored. -/
theorem c4_idempotent (root version : String) (cand1 cand2 : Archive)
    (dist : List DistFile) (t1 t2 : Nat) (h : cand2.members = cand1.members) :
    (package_windows_zip_dist compare_zip_files root version cand2
        (package_windows_zip_dist compare_zip_files root version cand1 dist t1).2 t2).1 =
      ⟨true, true, false⟩ ∧
    (package_windows_zip_dist compare_zip_files root version cand2
        (package_windows_zip_dist compare_zip_files root version cand1 dist t1).2 t2).2 =
      (package_windows_zip_dist compare_zip_files root version cand1 dist t1).2 := by
  obtain ⟨hs1, hall, f, hfind, hmem⟩ := zip_dist_state root version cand1 dist t1
  have hfix : (package_windows_zip_dist compare_zip_files root version cand1 dist t1).2.filter
      (zipKeep root version) =
      (package_windows_zip_dist compare_zip_files root version cand1 dist t1).2 :=
    List.filter_eq_self.mpr hall
  have hc2 : compare_zip_files cand2 f.content = true := by
    rw [compare_zip_files, beq_iff_eq, hmem, h]
  constructor <;>
  · rw [package_windows_zip_dist_eq, delete_other_versions_zip, hfix]
    simp [zip_publish_tail, hfind, hc2]

/-- C4 at a concrete input: same member content, different metadata,
published twice into an empty dist. -/
theorem c4_idempotent_witness :
    sampleA2.members = sampleA.members ∧
    ((package_windows_zip_dist compare_zip_files "/r" "0.6.4" sampleA2
        (package_windows_zip_dist compare_zip_files "/r" "0.6.4" sampleA [] 0).2 1).1 =
      ⟨true, true, false⟩ ∧
     (package_windows_zip_dist compare_zip_files "/r" "0.6.4" sampleA2
        (package_windows_zip_dist compare_zip_files "/r" "0.6.4" sampleA [] 0).2 1).2 =
      (package_windows_zip_dist compare_zip_files "/r" "0.6.4" sampleA [] 0).2) :=
  ⟨rfl, c4_idempotent "/r" "0.6.4" sampleA sampleA2 [] 0 1 rfl⟩

/-- C6 as stated is false on the code: `find_asset_with_ext` tests
`version not in filepath` on the globbed PATH (package.py line 136), not
on the file name, so a candidate whose name lacks the version string is
accepted whenever the build directory's path contains it. Concrete run:
the name "ta-lib-win64.msi" has no "0.6.4" in it, yet the lookup under
"/home/user/ta-lib-0.6.4/build" succeeds instead of failing. -/
theorem c6_counterexample :
    strContains "ta-lib-win64.msi" "0.6.4" = false ∧
    find_asset_with_ext "/home/user/ta-lib-0.6.4/build" "0.6.4" "msi"
        ["ta-lib-win64.msi"] = .ok "ta-lib-win64.msi" := by
  decide

/-- C6 amended: with a single matching candidate, the operation fails
with the versioning error iff the version is not a substring of the
candidate's FULL globbed path (directory joined with name); a name
lacking the version therefore still always fails when the directory path
also lacks the version (for a version string without the path
separator), and on such a failure the msi flow exits with code 1 before
touching the publish location. -/
theorem c6_amended_version_check (dir version ext name : String)
    (hext : strEndsWith name ("." ++ ext) = true) :
    (find_asset_with_ext dir version ext [name] = .error .versioning ↔
      strContains (pathJoin dir name) version = false) ∧
    (('/' : Char) ∉ version.data → strContains dir version = false →
      strContains name version = false →
      find_asset_with_ext dir version ext [name] = .error .versioning) ∧
    (∀ (env : MsiEnv) (force : Bool) (cmp : Archive → Archive → Bool)
       (root : String) (c : Archive) (mt : Nat) (dist : List DistFile) (now : Nat),
       env.dotnet = true → env.wix = true → env.build_ok = true →
       strEndsWith name ".msi" = true →
       strContains (pathJoin (pathJoin root "build") name) version = false →
       package_windows_msi_run env force cmp root version [⟨name, c, mt⟩] dist now =
         .error 1) := by
  have hiff : find_asset_with_ext dir version ext [name] = .error .versioning ↔
      strContains (pathJoin dir name) version = false := by
    cases hsc : strContains (pathJoin dir name) version <;>
      simp [find_asset_with_ext, hext, hsc]
  refine ⟨hiff, ?_, ?_⟩
  · intro hs hd hn
    apply hiff.mpr
    rw [strContains_pathJoin dir name version hs, hd, hn]
    rfl
  · intro env force cmp root c mt dist now hdot hwix hbuild hmsi hpath
    simp [package_windows_msi_run, hdot, hwix, hbuild, find_asset_with_ext,
      hmsi, hpath]

/-- C6 amended, at a concrete input: a candidate name without the
version under a build path without the version. -/
theorem c6_amended_version_check_witness :
    strEndsWith "ta-lib-win64.msi" ("." ++ "msi") = true ∧
    ((find_asset_with_ext "/r/build" "0.6.4" "msi" ["ta-lib-win64.msi"] =
        .error .versioning ↔
      strContains (pathJoin "/r/build" "ta-lib-win64.msi") "0.6.4" = false) ∧
     (('/' : Char) ∉ "0.6.4".data → strContains "/r/build" "0.6.4" = false →
       strContains "ta-lib-win64.msi" "0.6.4" = false →
       find_asset_with_ext "/r/build" "0.6.4" "msi" ["ta-lib-win64.msi"] =
         .error .versioning) ∧
     (∀ (env : MsiEnv) (force : Bool) (cmp : Archive → Archive → Bool)
        (root : String) (c : Archive) (mt : Nat) (dist : List DistFile) (now : Nat),
        env.dotnet = true → env.wix = true → env.build_ok = true →
        strEndsWith "ta-lib-win64.msi" ".msi" = true →
        strContains (pathJoin (pathJoin root "build") "ta-lib-win64.msi") "0.6.4" =
          false →
        package_windows_msi_run env force cmp root "0.6.4" [⟨"ta-lib-win64.msi", c, mt⟩]
            dist now = .error 1)) :=
  ⟨by decide,
    c6_amended_version_check "/r/build" "0.6.4" "msi" "ta-lib-win64.msi" (by decide)⟩

/-- C7 as stated is false on the code, twice over. First,
`delete_other_versions` tests the version against the globbed PATH
(package.py line 58), so when the dist directory's own path contains the
version string, a matching file of another version is never deleted:
under root "/home/bob/ta-lib-0.6.4" the stale 0.5.0 zip survives a
successful publish of the 0.6.4 zip. Second, even with a version-free
dist path, a pattern-matching file of the SAME version under a different
name ("ta-lib-0.6.4-extra.zip") survives the purge, so after a
successful publish the dist holds two artifacts of that format and
version — "exactly one artifact of that format and version" fails as
well. -/
theorem c7_counterexample :
    (globMatch "ta-lib-" ".zip" "ta-lib-0.5.0-win64.zip" = true ∧
     strContains "ta-lib-0.5.0-win64.zip" "0.6.4" = false ∧
     (package_windows_zip_dist compare_zip_files "/home/bob/ta-lib-0.6.4" "0.6.4"
        sampleA [⟨"ta-lib-0.5.0-win64.zip", sampleB, 0⟩] 1).1.success = true ∧
     (⟨"ta-lib-0.5.0-win64.zip", sampleB, 0⟩ : DistFile) ∈
       (package_windows_zip_dist compare_zip_files "/home/bob/ta-lib-0.6.4" "0.6.4"
        sampleA [⟨"ta-lib-0.5.0-win64.zip", sampleB, 0⟩] 1).2 ∧
     ((package_windows_zip_dist compare_zip_files "/home/bob/ta-lib-0.6.4" "0.6.4"
        sampleA [⟨"ta-lib-0.5.0-win64.zip", sampleB, 0⟩] 1).2.filter
       (fun f => globMatch "ta-lib-" ".zip" f.name)).length = 2) ∧
    (strContains (pathJoin "/r" "dist") "0.6.4" = false ∧
     strContains "ta-lib-0.6.4-extra.zip" "0.6.4" = true ∧
     globMatch "ta-lib-" ".zip" "ta-lib-0.6.4-extra.zip" = true ∧
     (package_windows_zip_dist compare_zip_files "/r" "0.6.4"
        sampleA [⟨"ta-lib-0.6.4-extra.zip", sampleB, 0⟩] 1).1.success = true ∧
     ((package_windows_zip_dist compare_zip_files "/r" "0.6.4"
        sampleA [⟨"ta-lib-0.6.4-extra.zip", sampleB, 0⟩] 1).2.filter
       (fun f => globMatch "ta-lib-" ".zip" f.name)).length = 2) := by
  decide

/-- C7 amended, per format. zip and deb purge by a version-substring
test on the globbed path, so they delete a matching file exactly when
the version is missing from its path; provided the dist directory's
path (and for deb also the build directory's path) does not itself
contain the version — and the version has no path separator — this is
the name-based deletion the claim describes, and after a publish every
pattern-matching file in dist carries the version in its name, with the
canonical asset present for zip. The src.tar.gz purge instead deletes
every matching file whose globbed path does not END with the canonical
asset name, so after that flow every matching file's name ends with the
canonical name (and thus carries the version), with the asset present
on a successful run. The msi flow performs no purge at all: every dist
file under another name survives its publish step untouched. "Exactly
one artifact of that format and version" is not guaranteed by any flow
(see the counterexample's second scenario). -/
theorem c7_amended_stale_purge (root version : String) (cand : Archive)
    (dist buildFiles : List DistFile) (t : Nat) (env : DebEnv)
    (cmp : Archive → Archive → Bool) (ok : Bool)
    (hs : ('/' : Char) ∉ version.data)
    (hd : strContains (pathJoin root "dist") version = false)
    (hb : strContains (pathJoin root "build") version = false)
    (hdebian : env.is_debian_based = true)
    (hcm : env.is_cmake_installed = true)
    (hcl : env.cmake_lists_exists = true) :
    (delete_other_versions (pathJoin root "dist") "ta-lib-" ".zip" version dist =
      dist.filter (fun f =>
        !(globMatch "ta-lib-" ".zip" f.name && !(strContains f.name version)))) ∧
    (∀ g ∈ (package_windows_zip_dist compare_zip_files root version cand dist t).2,
       globMatch "ta-lib-" ".zip" g.name = true → strContains g.name version = true) ∧
    (findFile (package_windows_zip_dist compare_zip_files root version cand dist t).2
        ("ta-lib-" ++ version ++ "-win64.zip")).isSome = true ∧
    (∀ g ∈ (package_deb_run env cmp root version buildFiles dist t).2,
       strEndsWith g.name ".deb" = true → strContains g.name version = true) ∧
    (src_delete_stale root version dist =
      dist.filter (fun f =>
        !(globMatch "" "-src.tar.gz" f.name &&
          !(strEndsWith f.name ("ta-lib-" ++ version ++ "-src.tar.gz"))))) ∧
    (∀ g ∈ (package_src_tar_gz_dist ok cmp root version cand dist t).2,
       globMatch "" "-src.tar.gz" g.name = true →
         strEndsWith g.name ("ta-lib-" ++ version ++ "-src.tar.gz") = true) ∧
    (ok = true →
      (package_src_tar_gz_dist ok cmp root version cand dist t).1.success = true ∧
      (findFile (package_src_tar_gz_dist ok cmp root version cand dist t).2
          ("ta-lib-" ++ version ++ "-src.tar.gz")).isSome = true) ∧
    (∀ (force : Bool) (nm : String) (c2 : Archive) (g : DistFile),
       g ∈ dist → (g.name == nm) = false →
       g ∈ (msi_publish_tail cmp force dist nm c2 t).2) := by
  obtain ⟨hs1, hall, f, hfind, hmem⟩ := zip_dist_state root version cand dist t
  have hnoslash : ('/' : Char) ∉ ("ta-lib-" ++ version ++ "-src.tar.gz").data :=
    src_asset_no_slash version hs
  refine ⟨?_, ?_, ?_, ?_, ?_, ?_, ?_, ?_⟩
  · rw [delete_other_versions_zip]
    apply List.filter_congr
    intro g hg
    rw [zipKeep, strContains_pathJoin _ _ _ hs, hd]
    rfl
  · intro g hg hglob
    have hk := hall g hg
    rw [zipKeep, hglob] at hk
    rw [strContains_pathJoin _ _ _ hs, hd] at hk
    simpa using hk
  · rw [hfind]
    rfl
  · intro g hg he
    rcases package_deb_run_mem env cmp root version buildFiles dist t
        hdebian hcm hcl g hg with ⟨hgd, himp⟩ | hpath
    · have hp := himp he
      rw [strContains_pathJoin _ _ _ hs, hd] at hp
      simpa using hp
    · rw [strContains_pathJoin _ _ _ hs, hb] at hpath
      simpa using hpath
  · rw [src_delete_stale]
    apply List.filter_congr
    intro g hg
    rw [strEndsWith_pathJoin _ _ _ hnoslash]
  · intro g hg hglob
    rcases src_dist_mem ok cmp root version cand dist t g hg with
        ⟨hgd, himp⟩ | hname
    · have hp := himp hglob
      rw [strEndsWith_pathJoin _ _ _ hnoslash] at hp
      exact hp
    · rw [hname]
      exact strEndsWith_refl _
  · intro hok
    subst hok
    have heq : package_src_tar_gz_dist true cmp root version cand dist t =
        src_publish_tail cmp (src_delete_stale root version dist)
          ("ta-lib-" ++ version ++ "-src.tar.gz") cand t := by
      simp [package_src_tar_gz_dist]
    rw [heq]
    exact src_tail_present cmp _ _ cand t
  · intro force nm c2 g hg hne
    exact msi_tail_preserves cmp force dist nm c2 t g hg hne

/-- C7 amended, at a concrete input: version-free dist and build paths,
stale 0.5.0 zip, deb and src.tar.gz files in dist, one versioned deb in
the build directory. -/
theorem c7_amended_stale_purge_witness :
    (('/' : Char) ∉ "0.6.4".data ∧
     strContains (pathJoin "/r" "dist") "0.6.4" = false ∧
     strContains (pathJoin "/r" "build") "0.6.4" = false ∧
     (⟨true, true, true, true, true⟩ : DebEnv).is_debian_based = true ∧
     (⟨true, true, true, true, true⟩ : DebEnv).is_cmake_installed = true ∧
     (⟨true, true, true, true, true⟩ : DebEnv).cmake_lists_exists = true) ∧
    ((delete_other_versions (pathJoin "/r" "dist") "ta-lib-" ".zip" "0.6.4"
        [⟨"ta-lib-0.5.0-win64.zip", sampleB, 0⟩, ⟨"ta-lib-0.5.0_amd64.deb", sampleB, 0⟩,
         ⟨"ta-lib-0.5.0-src.tar.gz", sampleB, 0⟩] =
      List.filter (fun f =>
        !(globMatch "ta-lib-" ".zip" f.name && !(strContains f.name "0.6.4")))
        [⟨"ta-lib-0.5.0-win64.zip", sampleB, 0⟩, ⟨"ta-lib-0.5.0_amd64.deb", sampleB, 0⟩,
         ⟨"ta-lib-0.5.0-src.tar.gz", sampleB, 0⟩]) ∧
     (∀ g ∈ (package_windows_zip_dist compare_zip_files "/r" "0.6.4" sampleA
          [⟨"ta-lib-0.5.0-win64.zip", sampleB, 0⟩, ⟨"ta-lib-0.5.0_amd64.deb", sampleB, 0⟩,
           ⟨"ta-lib-0.5.0-src.tar.gz", sampleB, 0⟩] 1).2,
        globMatch "ta-lib-" ".zip" g.name = true →
          strContains g.name "0.6.4" = true) ∧
     (findFile (package_windows_zip_dist compare_zip_files "/r" "0.6.4" sampleA
          [⟨"ta-lib-0.5.0-win64.zip", sampleB, 0⟩, ⟨"ta-lib-0.5.0_amd64.deb", sampleB, 0⟩,
           ⟨"ta-lib-0.5.0-src.tar.gz", sampleB, 0⟩] 1).2
        ("ta-lib-" ++ "0.6.4" ++ "-win64.zip")).isSome = true ∧
     (∀ g ∈ (package_deb_run ⟨true, true, true, true, true⟩ compare_zip_files
          "/r" "0.6.4" [⟨"ta-lib_0.6.4_amd64.deb", sampleA, 0⟩]
          [⟨"ta-lib-0.5.0-win64.zip", sampleB, 0⟩, ⟨"ta-lib-0.5.0_amd64.deb", sampleB, 0⟩,
           ⟨"ta-lib-0.5.0-src.tar.gz", sampleB, 0⟩] 1).2,
        strEndsWith g.name ".deb" = true → strContains g.name "0.6.4" = true) ∧
     (src_delete_stale "/r" "0.6.4"
        [⟨"ta-lib-0.5.0-win64.zip", sampleB, 0⟩, ⟨"ta-lib-0.5.0_amd64.deb", sampleB, 0⟩,
         ⟨"ta-lib-0.5.0-src.tar.gz", sampleB, 0⟩] =
      List.filter (fun f =>
        !(globMatch "" "-src.tar.gz" f.name &&
          !(strEndsWith f.name ("ta-lib-" ++ "0.6.4" ++ "-src.tar.gz"))))
        [⟨"ta-lib-0.5.0-win64.zip", sampleB, 0⟩, ⟨"ta-lib-0.5.0_amd64.deb", sampleB, 0⟩,
         ⟨"ta-lib-0.5.0-src.tar.gz", sampleB, 0⟩]) ∧
     (∀ g ∈ (package_src_tar_gz_dist true compare_zip_files "/r" "0.6.4" sampleA
          [⟨"ta-lib-0.5.0-win64.zip", sampleB, 0⟩, ⟨"ta-lib-0.5.0_amd64.deb", sampleB, 0⟩,
           ⟨"ta-lib-0.5.0-src.tar.gz", sampleB, 0⟩] 1).2,
        globMatch "" "-src.tar.gz" g.name = true →
          strEndsWith g.name ("ta-lib-" ++ "0.6.4" ++ "-src.tar.gz") = true) ∧
     (true = true →
       (package_src_tar_gz_dist true compare_zip_files "/r" "0.6.4" sampleA
          [⟨"ta-lib-0.5.0-win64.zip", sampleB, 0⟩, ⟨"ta-lib-0.5.0_amd64.deb", sampleB, 0⟩,
           ⟨"ta-lib-0.5.0-src.tar.gz", sampleB, 0⟩] 1).1.success = true ∧
       (findFile (package_src_tar_gz_dist true compare_zip_files "/r" "0.6.4" sampleA
            [⟨"ta-lib-0.5.0-win64.zip", sampleB, 0⟩, ⟨"ta-lib-0.5.0_amd64.deb", sampleB, 0⟩,
             ⟨"ta-lib-0.5.0-src.tar.gz", sampleB, 0⟩] 1).2
          ("ta-lib-" ++ "0.6.4" ++ "-src.tar.gz")).isSome = true) ∧
     (∀ (force : Bool) (nm : String) (c2 : Archive) (g : DistFile),
        g ∈ [⟨"ta-lib-0.5.0-win64.zip", sampleB, 0⟩,
             (⟨"ta-lib-0.5.0_amd64.deb", sampleB, 0⟩ : DistFile),
             ⟨"ta-lib-0.5.0-src.tar.gz", sampleB, 0⟩] →
        (g.name == nm) = false →
        g ∈ (msi_publish_tail compare_zip_files force
          [⟨"ta-lib-0.5.0-win64.zip", sampleB, 0⟩, ⟨"ta-lib-0.5.0_amd64.deb", sampleB, 0⟩,
           ⟨"ta-lib-0.5.0-src.tar.gz", sampleB, 0⟩] nm c2 1).2)) :=
  ⟨⟨by decide, by decide, by decide, rfl, rfl, rfl⟩,
    c7_amended_stale_purge "/r" "0.6.4" sampleA
      [⟨"ta-lib-0.5.0-win64.zip", sampleB, 0⟩, ⟨"ta-lib-0.5.0_amd64.deb", sampleB, 0⟩,
       ⟨"ta-lib-0.5.0-src.tar.gz", sampleB, 0⟩]
      [⟨"ta-lib_0.6.4_amd64.deb", sampleA, 0⟩] 1 ⟨true, true, true, true, true⟩
      compare_zip_files true (by decide) (by decide) (by decide) rfl rfl rfl⟩

theorem zip_tail_success (cmp : Archive → Archive → Bool) (d : List DistFile)
    (n : String) (c : Archive) (t : Nat) :
    (zip_publish_tail cmp d n c t).1.success = true := by
  dsimp only [zip_publish_tail]
  split <;> rfl

theorem msi_tail_force_copied (cmp : Archive → Archive → Bool) (d : List DistFile)
    (n : String) (c : Archive) (t : Nat) :
    (msi_publish_tail cmp true d n c t).1.copied = true := by
  dsimp only [msi_publish_tail]
  simp

theorem msi_tail_unforced_copied (cmp : Archive → Archive → Bool) (d : List DistFile)
    (n : String) (c : Archive) (t : Nat) :
    (msi_publish_tail cmp false d n c t).1.copied =
      (!(published d n) || !(equivTo cmp d n c)) := by
  cases hf : findFile d n with
  | none => simp [msi_publish_tail, published, equivTo, hf]
  | some f =>
    cases hc : cmp c f.content <;>
      simp [msi_publish_tail, published, equivTo, hf, hc]

/-- C8: on a RedHat-based, non-Debian host with rpmbuild installed (and
not Ubuntu, Ubuntu being Debian-based), the orchestrator's RPM branch
invokes `package_deb` (package.py line 563), whose `is_debian_based`
guard fails, so the returned result has `success=False` and the run
aborts with exit code 1; `package_deb` leaves dist untouched in that
case, and `package_rpm` — which nothing ever calls — returns failure
unconditionally, so no RPM artifact is ever produced. -/
theorem c8_redhat_run_aborts (env : LinuxEnv) (cmp : Archive → Archive → Bool)
    (root version : String) (buildFiles : List DistFile)
    (src_step : List DistFile → PublishResult × List DistFile)
    (dist : List DistFile) (now : Nat)
    (hu : env.is_ubuntu = false) (hr : env.is_redhat_based = true)
    (hrpm : env.is_rpmbuild_installed = true)
    (hd : env.deb.is_debian_based = false) :
    package_all_linux_run env cmp root version buildFiles src_step dist now =
      .error 1 ∧
    package_deb_run env.deb cmp root version buildFiles dist now =
      (⟨false, false, false⟩, dist) ∧
    (∀ r v s : String, package_rpm r v s = ⟨false, false, false⟩) := by
  have hdeb : package_deb_run env.deb cmp root version buildFiles dist now =
      (⟨false, false, false⟩, dist) := by
    simp [package_deb_run, hd]
  refine ⟨?_, hdeb, fun _ _ _ => rfl⟩
  simp [package_all_linux_run, hu, hr, hrpm, hd, hdeb]

/-- C8 at a concrete input: RedHat-based, non-Debian, rpmbuild present. -/
theorem c8_redhat_run_aborts_witness :
    ((⟨false, true, true, ⟨false, true, true, true, true⟩⟩ : LinuxEnv).is_ubuntu =
        false ∧
     (⟨false, true, true, ⟨false, true, true, true, true⟩⟩ : LinuxEnv).is_redhat_based =
        true ∧
     (⟨false, true, true,
        ⟨false, true, true, true, true⟩⟩ : LinuxEnv).is_rpmbuild_installed = true ∧
     (⟨false, true, true,
        ⟨false, true, true, true, true⟩⟩ : LinuxEnv).deb.is_debian_based = false) ∧
    (package_all_linux_run ⟨false, true, true, ⟨false, true, true, true, true⟩⟩
        compare_zip_files "/r" "0.6.4" [] (fun d => (⟨false, false, false⟩, d)) [] 0 =
      .error 1 ∧
     package_deb_run (⟨false, true, true, ⟨false, true, true, true, true⟩⟩ :
          LinuxEnv).deb compare_zip_files "/r" "0.6.4" [] [] 0 =
       (⟨false, false, false⟩, []) ∧
     (∀ r v s : String, package_rpm r v s = ⟨false, false, false⟩)) :=
  ⟨⟨rfl, rfl, rfl, rfl⟩,
    c8_redhat_run_aborts ⟨false, true, true, ⟨false, true, true, true, true⟩⟩
      compare_zip_files "/r" "0.6.4" [] (fun d => (⟨false, false, false⟩, d)) [] 0
      rfl rfl rfl rfl⟩

/-- C9: when `create_zip_file` fails, `package_windows_zip` returns
Python `None` (the bare `return` at package.py line 197), and the caller
`package_all_windows`, which unconditionally runs
`zip_results.update(results)` (line 602), raises `TypeError` instead of
printing the packaging-failure diagnostic and exiting with status 1. -/
theorem c9_zip_create_failure_type_error (wix : Bool) (msiEnv : MsiEnv)
    (cmpZ cmpM : Archive → Archive → Bool) (root version : String)
    (zipCand : Archive) (buildFiles dist : List DistFile) (now : Nat) :
    (package_windows_zip_run true false cmpZ root version zipCand dist now).1 =
      none ∧
    package_all_windows_run true false wix msiEnv cmpZ cmpM root version zipCand
        buildFiles dist now = .error .typeError ∧
    (∀ n : Nat, RunErr.typeError ≠ RunErr.exitCode n) := by
  refine ⟨?_, ?_, ?_⟩
  · simp [package_windows_zip_run]
  · simp [package_all_windows_run, package_windows_zip_run]
  · intro n hc
    exact RunErr.noConfusion hc

/-- C10: in a Windows run with the zip and msi steps both reachable, the
msi publish is invoked with force equal to the zip step's `copied` flag
(package.py lines 611-613, 626): when the zip step copied a new file the
msi tail runs forced and always copies, even over a content-equivalent
published msi; when the zip step reported no change the msi tail's copy
decision is the plain existence-and-equivalence check. -/
theorem c10_zip_copy_forces_msi (msiEnv : MsiEnv)
    (cmpZ cmpM : Archive → Archive → Bool) (root version : String)
    (zipCand : Archive) (buildFiles dist : List DistFile) (now : Nat) :
    (∃ r : PublishResult,
      (package_windows_zip_run true true cmpZ root version zipCand dist now).1 =
        some r ∧
      r.success = true ∧
      package_all_windows_run true true true msiEnv cmpZ cmpM root version zipCand
          buildFiles dist now =
        (match package_windows_msi_run msiEnv r.copied cmpM root version buildFiles
            (package_windows_zip_run true true cmpZ root version zipCand dist now).2
            now with
         | .error code => .error (.exitCode code)
         | .ok (m, d2) =>
           if !m.success then .error (.exitCode 1)
           else .ok (r, ⟨true, m.success, ".msi", m.copied, m.existed⟩, d2))) ∧
    (∀ (d : List DistFile) (nm : String) (c : Archive) (t : Nat),
       (msi_publish_tail cmpM true d nm c t).1.copied = true) ∧
    (∀ (d : List DistFile) (nm : String) (c : Archive) (t : Nat),
       (msi_publish_tail cmpM false d nm c t).1.copied =
         (!(published d nm) || !(equivTo cmpM d nm c))) := by
  refine ⟨?_, msi_tail_force_copied cmpM, msi_tail_unforced_copied cmpM⟩
  rcases he : zip_publish_tail cmpZ
      (delete_other_versions (pathJoin root "dist") "ta-lib-" ".zip" version dist)
      ("ta-lib-" ++ version ++ "-win64.zip") zipCand now with ⟨r, d2⟩
  have hzip : package_windows_zip_run true true cmpZ root version zipCand dist now =
      (some r, d2) := by
    simp [package_windows_zip_run, he]
  have hrs : r.success = true := by
    have h2 := zip_tail_success cmpZ
      (delete_other_versions (pathJoin root "dist") "ta-lib-" ".zip" version dist)
      ("ta-lib-" ++ version ++ "-win64.zip") zipCand now
    rw [he] at h2
    exact h2
  refine ⟨r, by rw [hzip], hrs, ?_⟩
  rw [hzip]
  rcases hm : package_windows_msi_run msiEnv r.copied cmpM root version buildFiles
      d2 now with code | ⟨m, d3⟩ <;>
    simp [package_all_windows_run, hzip, hrs, hm]

end TaLib
